import Mathlib

/-!
Verification of the `TJLed` non-blocking LED effect controller (`src/jled.h`).

The controller state and its operations are shallowly embedded below.  All
machine integers are modelled as `Nat` with explicit reductions modulo
`2^32 = 4294967296` (for `uint32_t`), `2^16 = 65536` (for `uint16_t`) and
`2^8 = 256` (for `uint8_t`) exactly where the C++ arithmetic wraps.  The
output sink (`port_.analogWrite`) is modelled as a log of written values.
Two instrumentation fields extend the state: `evalCount` counts brightness
function evaluations, and `modZeroHit` records whether the modulo operation
of `Update` (line 105 of the source) was ever executed with divisor
`period_ + delay_after_ = 0`, which is undefined behaviour in C++.
-/

set_option maxHeartbeats 1000000
set_option maxRecDepth 100000

namespace JLed

/-- The brightness evaluation function installed in `brightness_func_`:
one of the five built-in static member functions, or a caller supplied
function (`UserFunc`).  A C++ user function returns `uint8_t`, hence the
`% 256` in `evalFn` below. -/
inductive BrightnessFn where
  | onF
  | offF
  | blinkF
  | fadeOnF
  | fadeOffF
  | breatheF
  | userF (g : Nat → Nat → Nat → Nat)

/-- `kTimeUndef = (uint32_t)(-1)`. -/
def kTimeUndef : Nat := 4294967295

/-- `kRepeatForever = 65535`. -/
def kRepeatForever : Nat := 65535

def FL_INVERTED : Nat := 1
def FL_LOW_ACTIVE : Nat := 2
def FL_IN_DELAY_PHASE : Nat := 4

/-- Unsigned 32-bit subtraction `a - b` on `uint32_t` values. -/
def sub32 (a b : Nat) : Nat :=
  (a % 4294967296 + (4294967296 - b % 4294967296)) % 4294967296

/-- `kFadeOnTable = {0, 3, 13, 33, 68, 118, 179, 232, 255}`. -/
def kFadeOnTable : List Nat := [0, 3, 13, 33, 68, 118, 179, 232, 255]

/-- Table lookup `kFadeOnTable[i]` (out-of-range reads, which the source
never performs, default to 0). -/
def tbl (i : Nat) : Nat := kFadeOnTable.getD i 0

/-- Lines 272-278 of `FadeOnFunc`: linear interpolation in the table at the
scaled time `x` (already masked to `0..255`); `i = x >> 5`, `x0 = i << 5`,
`y0 = kFadeOnTable[i]`, `y1 = kFadeOnTable[i+1]`, and the returned
`((x - x0) * (y1 - y0) >> 5) + y0` is converted to `uint8_t`. -/
def interpolate (x : Nat) : Nat :=
  (((x - ((x >>> 5) <<< 5)) * (tbl ((x >>> 5) + 1) - tbl (x >>> 5))) >>> 5
    + tbl (x >>> 5)) % 256

/-- `TJLed::FadeOnFunc`.  `t` is `uint32_t`, so `t + 1` wraps modulo `2^32`
and `t << 8` is computed modulo `2^32`. -/
def fadeOnFunc (t period _param : Nat) : Nat :=
  if period ≤ (t + 1) % 4294967296 then 255
  else interpolate ((((t % 4294967296) <<< 8) % 4294967296) / period &&& 255)

/-- `TJLed::FadeOffFunc`: `FadeOnFunc(period - t, period, 0)` with the
subtraction performed on `uint32_t`. -/
def fadeOffFunc (t period _param : Nat) : Nat :=
  fadeOnFunc (sub32 period t) period 0

/-- `TJLed::BreatheFunc`. -/
def breatheFunc (t period _param : Nat) : Nat :=
  if period ≤ (t + 1) % 4294967296 then 0
  else if t < period >>> 1 then fadeOnFunc t (period >>> 1) 0
  else fadeOffFunc (t - (period >>> 1)) (period >>> 1) 0

/-- Dispatch of `brightness_func_(t, period, param)`. -/
def evalFn : BrightnessFn → Nat → Nat → Nat → Nat
  | .onF, _, _, _ => 255
  | .offF, _, _, _ => 0
  | .blinkF, t, _, p => if t < p then 255 else 0
  | .fadeOnF, t, period, p => fadeOnFunc t period p
  | .fadeOffF, t, period, p => fadeOffFunc t period p
  | .breatheF, t, period, p => breatheFunc t period p
  | .userF g, t, period, p => g t period p % 256

/-- The member state of `TJLed`, plus the sink log (`port`) and the two
instrumentation fields described in the file header. -/
structure JLedState where
  brightness_func : Option BrightnessFn
  effect_param : Nat
  flags : Nat
  num_repetitions : Nat
  last_update_time : Nat
  delay_before : Nat
  delay_after : Nat
  time_start : Nat
  period : Nat
  port : List Nat
  evalCount : Nat
  modZeroHit : Bool

/-- A freshly constructed `TJLed` object (member initializers of the
source class), bound to a sink with an empty write log. -/
def initialState : JLedState :=
  { brightness_func := none
    effect_param := 0
    flags := 0
    num_repetitions := 1
    last_update_time := kTimeUndef
    delay_before := 0
    delay_after := 0
    time_start := kTimeUndef
    period := 0
    port := []
    evalCount := 0
    modZeroHit := false }

/-- `TJLed::GetFlag`. -/
def getFlag (s : JLedState) (f : Nat) : Bool := s.flags &&& f != 0

/-- `TJLed::SetFlags` (`flags_` is `uint8_t`, so `flags_ &= ~f` is an AND
with the 8-bit complement of `f`). -/
def setFlags (s : JLedState) (f : Nat) (val : Bool) : JLedState :=
  if val then { s with flags := s.flags ||| f }
  else { s with flags := s.flags &&& (255 ^^^ f) }

/-- `TJLed::SetInDelayAfterPhase`. -/
def setInDelayAfterPhase (s : JLedState) (b : Bool) : JLedState :=
  setFlags s FL_IN_DELAY_PHASE b

/-- `TJLed::AnalogWrite`: honors the low-active flag, then writes to the
sink (appended to the log). -/
def analogWrite (s : JLedState) (val : Nat) : JLedState :=
  { s with port := s.port ++ [if getFlag s FL_LOW_ACTIVE then 255 - val else val] }

/-- `TJLed::EvalBrightness`: raw brightness from `brightness_func_`,
then the inversion transform. -/
def evalBrightness (s : JLedState) (f : BrightnessFn) (t : Nat) : Nat :=
  if getFlag s FL_INVERTED then 255 - evalFn f t s.period s.effect_param
  else evalFn f t s.period s.effect_param

/-- `AnalogWrite(EvalBrightness(t))`, counting the evaluation. -/
def writeEval (s : JLedState) (f : BrightnessFn) (t : Nat) : JLedState :=
  analogWrite { s with evalCount := s.evalCount + 1 } (evalBrightness s f t)

/-- Instrumentation: record that `Update` is about to execute
`(now - time_start_) % (period_ + delay_after_)` with divisor 0. -/
def markModZero (s : JLedState) : JLedState :=
  if s.period + s.delay_after = 0 then { s with modZeroHit := true } else s

/-- Lines 104-118 of `TJLed::Update`: the cyclic phase.  `t` cycles in
`[0 .. period + delay_after - 1]`; active phase writes the brightness at
`t`, the delay-after phase writes once (at `period - 1`) on entry. -/
def updateCycleCore (s : JLedState) (f : BrightnessFn) (now : Nat) : Bool × JLedState :=
  if sub32 now s.time_start % (s.period + s.delay_after) < s.period then
    (true, writeEval (setInDelayAfterPhase s false) f
      (sub32 now s.time_start % (s.period + s.delay_after)))
  else if ! getFlag s FL_IN_DELAY_PHASE then
    (true, writeEval (setInDelayAfterPhase s true) f (sub32 s.period 1))
  else (true, s)

def updateCycle (s : JLedState) (f : BrightnessFn) (now : Nat) : Bool × JLedState :=
  updateCycleCore (markModZero s) f now

/-- Lines 91-118 of `TJLed::Update`: unless running forever, compute
`time_end = time_start_ + (uint32_t)(period_ + delay_after_) * num_repetitions_`
(`uint32_t` arithmetic) and finish when `now >= time_end`, force-evaluating
the brightness at `period_ - 1` and clearing `brightness_func_`. -/
def updateActive (s : JLedState) (f : BrightnessFn) (now : Nat) : Bool × JLedState :=
  if s.num_repetitions ≠ kRepeatForever then
    if (s.time_start + (s.period + s.delay_after) * s.num_repetitions) % 4294967296 ≤ now then
      (false, { writeEval s f (sub32 s.period 1) with brightness_func := none })
    else updateCycle s f now
  else updateCycle s f now

/-- Lines 82-89 of `TJLed::Update`: consume the pre-delay budget by the
elapsed `delta` (floored at 0, computed exactly in `int64_t` in the
source); while some pre-delay remains, return "running" with no
evaluation.  `s` already has `last_update_time = now`. -/
def updateTick (s : JLedState) (f : BrightnessFn) (now delta : Nat) : Bool × JLedState :=
  if 0 < s.delay_before then
    if 0 < s.delay_before - delta then
      (true, { s with delay_before := s.delay_before - delta })
    else updateActive { s with delay_before := s.delay_before - delta } f now
  else updateActive s f now

/-- Lines 76-79 of `TJLed::Update`: first-call initialization when
`last_update_time_ == kTimeUndef`, establishing
`time_start_ = now + delay_before_` (`uint32_t` addition). -/
def initPhase (s : JLedState) (now : Nat) : JLedState :=
  if s.last_update_time = kTimeUndef then
    { s with last_update_time := now
             time_start := (now + s.delay_before) % 4294967296 }
  else s

/-- `TJLed::Update` at the caller-supplied time `now` (a `uint32_t`
millisecond counter): returns the "still running" flag and the new state.
The elapsed `delta_time = now - last_update_time_` is `uint32_t`
subtraction against the possibly just-initialized `last_update_time_`. -/
def update (s : JLedState) (now : Nat) : Bool × JLedState :=
  match s.brightness_func with
  | none => (false, s)
  | some f =>
    if s.last_update_time = now then (true, s)
    else
      updateTick { initPhase s now with last_update_time := now } f now
        (sub32 now (initPhase s now).last_update_time)

/-- `TJLed::Init`: install a brightness function and reset the timeline. -/
def Init (s : JLedState) (f : BrightnessFn) : JLedState :=
  { s with brightness_func := some f
           last_update_time := kTimeUndef
           time_start := kTimeUndef }

/-- `TJLed::On`. -/
def On (s : JLedState) : JLedState := Init { s with period := 1 } .onF

/-- `TJLed::Off`. -/
def Off (s : JLedState) : JLedState := Init { s with period := 1 } .offF

/-- `TJLed::FadeOn`. -/
def FadeOn (s : JLedState) (duration : Nat) : JLedState :=
  Init { s with period := duration } .fadeOnF

/-- `TJLed::FadeOff`. -/
def FadeOff (s : JLedState) (duration : Nat) : JLedState :=
  Init { s with period := duration } .fadeOffF

/-- `TJLed::Breathe`. -/
def Breathe (s : JLedState) (period : Nat) : JLedState :=
  Init { s with period := period } .breatheF

/-- `TJLed::Blink`: `period_ = duration_on + duration_off` is stored into a
`uint16_t`, hence the reduction modulo `2^16`. -/
def Blink (s : JLedState) (duration_on duration_off : Nat) : JLedState :=
  Init { s with period := (duration_on + duration_off) % 65536
                effect_param := duration_on } .blinkF

/-- `TJLed::UserFunc`. -/
def UserFunc (s : JLedState) (g : Nat → Nat → Nat → Nat)
    (period user_param : Nat) : JLedState :=
  Init { s with effect_param := user_param, period := period } (.userF g)

/-- `TJLed::Repeat`. -/
def Repeat (s : JLedState) (n : Nat) : JLedState := { s with num_repetitions := n }

/-- `TJLed::Forever`. -/
def Forever (s : JLedState) : JLedState := Repeat s kRepeatForever

/-- `TJLed::DelayBefore`. -/
def DelayBefore (s : JLedState) (d : Nat) : JLedState := { s with delay_before := d }

/-- `TJLed::DelayAfter`. -/
def DelayAfter (s : JLedState) (d : Nat) : JLedState := { s with delay_after := d }

/-- `TJLed::Invert`. -/
def Invert (s : JLedState) : JLedState := setFlags s FL_INVERTED true

/-- `TJLed::LowActive`. -/
def LowActive (s : JLedState) : JLedState := setFlags s FL_LOW_ACTIVE true

/-- `TJLed::Stop`: clear `brightness_func_`, then `AnalogWrite(0)`. -/
def Stop (s : JLedState) : JLedState :=
  analogWrite { s with brightness_func := none } 0

/-- Run `Update` once per element of `times`, collecting the returned
flags in order, together with the final state. -/
def runUpdates : JLedState → List Nat → List Bool × JLedState
  | s, [] => ([], s)
  | s, now :: rest =>
    ((update s now).1 :: (runUpdates (update s now).2 rest).1,
     (runUpdates (update s now).2 rest).2)

/-- Run `Update` once per element of `times`; for each call record the
returned flag and the values that call wrote to the sink. -/
def runTrace : JLedState → List Nat → List (Bool × List Nat)
  | _, [] => []
  | s, now :: rest =>
    ((update s now).1, (update s now).2.port.drop s.port.length)
      :: runTrace (update s now).2 rest

/-- The return values a finite-repeat run should produce when the effect
expires at absolute time `T`: "running" for every call strictly before
`T`, and "finished"/"idle" (false) from the first call at or after `T`. -/
def expectedRunning (T : Nat) : List Nat → List Bool
  | [] => []
  | now :: rest =>
    if now < T then true :: expectedRunning T rest
    else false :: List.replicate rest.length false

/-- The `delta_time` that `Update` at time `now` will use after the
first-call initialization: 0 on the first call, otherwise the `uint32_t`
difference `now - last_update_time_`. -/
def deltaOf (s : JLedState) (now : Nat) : Nat :=
  if s.last_update_time = kTimeUndef then 0 else sub32 now s.last_update_time

/-! ### Field-preservation lemmas -/

@[simp] theorem setFlags_brightness_func (s : JLedState) (f : Nat) (v : Bool) :
    (setFlags s f v).brightness_func = s.brightness_func := by
  unfold setFlags; split <;> rfl

@[simp] theorem setFlags_effect_param (s : JLedState) (f : Nat) (v : Bool) :
    (setFlags s f v).effect_param = s.effect_param := by
  unfold setFlags; split <;> rfl

@[simp] theorem setFlags_num_repetitions (s : JLedState) (f : Nat) (v : Bool) :
    (setFlags s f v).num_repetitions = s.num_repetitions := by
  unfold setFlags; split <;> rfl

@[simp] theorem setFlags_last_update_time (s : JLedState) (f : Nat) (v : Bool) :
    (setFlags s f v).last_update_time = s.last_update_time := by
  unfold setFlags; split <;> rfl

@[simp] theorem setFlags_delay_before (s : JLedState) (f : Nat) (v : Bool) :
    (setFlags s f v).delay_before = s.delay_before := by
  unfold setFlags; split <;> rfl

@[simp] theorem setFlags_delay_after (s : JLedState) (f : Nat) (v : Bool) :
    (setFlags s f v).delay_after = s.delay_after := by
  unfold setFlags; split <;> rfl

@[simp] theorem setFlags_time_start (s : JLedState) (f : Nat) (v : Bool) :
    (setFlags s f v).time_start = s.time_start := by
  unfold setFlags; split <;> rfl

@[simp] theorem setFlags_period (s : JLedState) (f : Nat) (v : Bool) :
    (setFlags s f v).period = s.period := by
  unfold setFlags; split <;> rfl

@[simp] theorem setFlags_port (s : JLedState) (f : Nat) (v : Bool) :
    (setFlags s f v).port = s.port := by
  unfold setFlags; split <;> rfl

@[simp] theorem setFlags_evalCount (s : JLedState) (f : Nat) (v : Bool) :
    (setFlags s f v).evalCount = s.evalCount := by
  unfold setFlags; split <;> rfl

@[simp] theorem setFlags_modZeroHit (s : JLedState) (f : Nat) (v : Bool) :
    (setFlags s f v).modZeroHit = s.modZeroHit := by
  unfold setFlags; split <;> rfl

@[simp] theorem setInDelayAfterPhase_eq (s : JLedState) (b : Bool) :
    setInDelayAfterPhase s b = setFlags s FL_IN_DELAY_PHASE b := rfl

@[simp] theorem analogWrite_brightness_func (s : JLedState) (v : Nat) :
    (analogWrite s v).brightness_func = s.brightness_func := rfl

@[simp] theorem analogWrite_effect_param (s : JLedState) (v : Nat) :
    (analogWrite s v).effect_param = s.effect_param := rfl

@[simp] theorem analogWrite_flags (s : JLedState) (v : Nat) :
    (analogWrite s v).flags = s.flags := rfl

@[simp] theorem analogWrite_num_repetitions (s : JLedState) (v : Nat) :
    (analogWrite s v).num_repetitions = s.num_repetitions := rfl

@[simp] theorem analogWrite_last_update_time (s : JLedState) (v : Nat) :
    (analogWrite s v).last_update_time = s.last_update_time := rfl

@[simp] theorem analogWrite_delay_before (s : JLedState) (v : Nat) :
    (analogWrite s v).delay_before = s.delay_before := rfl

@[simp] theorem analogWrite_delay_after (s : JLedState) (v : Nat) :
    (analogWrite s v).delay_after = s.delay_after := rfl

@[simp] theorem analogWrite_time_start (s : JLedState) (v : Nat) :
    (analogWrite s v).time_start = s.time_start := rfl

@[simp] theorem analogWrite_period (s : JLedState) (v : Nat) :
    (analogWrite s v).period = s.period := rfl

@[simp] theorem analogWrite_evalCount (s : JLedState) (v : Nat) :
    (analogWrite s v).evalCount = s.evalCount := rfl

@[simp] theorem analogWrite_modZeroHit (s : JLedState) (v : Nat) :
    (analogWrite s v).modZeroHit = s.modZeroHit := rfl

@[simp] theorem writeEval_brightness_func (s : JLedState) (f : BrightnessFn) (t : Nat) :
    (writeEval s f t).brightness_func = s.brightness_func := rfl

@[simp] theorem writeEval_effect_param (s : JLedState) (f : BrightnessFn) (t : Nat) :
    (writeEval s f t).effect_param = s.effect_param := rfl

@[simp] theorem writeEval_flags (s : JLedState) (f : BrightnessFn) (t : Nat) :
    (writeEval s f t).flags = s.flags := rfl

@[simp] theorem writeEval_num_repetitions (s : JLedState) (f : BrightnessFn) (t : Nat) :
    (writeEval s f t).num_repetitions = s.num_repetitions := rfl

@[simp] theorem writeEval_last_update_time (s : JLedState) (f : BrightnessFn) (t : Nat) :
    (writeEval s f t).last_update_time = s.last_update_time := rfl

@[simp] theorem writeEval_delay_before (s : JLedState) (f : BrightnessFn) (t : Nat) :
    (writeEval s f t).delay_before = s.delay_before := rfl

@[simp] theorem writeEval_delay_after (s : JLedState) (f : BrightnessFn) (t : Nat) :
    (writeEval s f t).delay_after = s.delay_after := rfl

@[simp] theorem writeEval_time_start (s : JLedState) (f : BrightnessFn) (t : Nat) :
    (writeEval s f t).time_start = s.time_start := rfl

@[simp] theorem writeEval_period (s : JLedState) (f : BrightnessFn) (t : Nat) :
    (writeEval s f t).period = s.period := rfl

@[simp] theorem writeEval_modZeroHit (s : JLedState) (f : BrightnessFn) (t : Nat) :
    (writeEval s f t).modZeroHit = s.modZeroHit := rfl

@[simp] theorem markModZero_brightness_func (s : JLedState) :
    (markModZero s).brightness_func = s.brightness_func := by
  unfold markModZero; split <;> rfl

@[simp] theorem markModZero_effect_param (s : JLedState) :
    (markModZero s).effect_param = s.effect_param := by
  unfold markModZero; split <;> rfl

@[simp] theorem markModZero_flags (s : JLedState) :
    (markModZero s).flags = s.flags := by
  unfold markModZero; split <;> rfl

@[simp] theorem markModZero_num_repetitions (s : JLedState) :
    (markModZero s).num_repetitions = s.num_repetitions := by
  unfold markModZero; split <;> rfl

@[simp] theorem markModZero_last_update_time (s : JLedState) :
    (markModZero s).last_update_time = s.last_update_time := by
  unfold markModZero; split <;> rfl

@[simp] theorem markModZero_delay_before (s : JLedState) :
    (markModZero s).delay_before = s.delay_before := by
  unfold markModZero; split <;> rfl

@[simp] theorem markModZero_delay_after (s : JLedState) :
    (markModZero s).delay_after = s.delay_after := by
  unfold markModZero; split <;> rfl

@[simp] theorem markModZero_time_start (s : JLedState) :
    (markModZero s).time_start = s.time_start := by
  unfold markModZero; split <;> rfl

@[simp] theorem markModZero_period (s : JLedState) :
    (markModZero s).period = s.period := by
  unfold markModZero; split <;> rfl

@[simp] theorem markModZero_port (s : JLedState) :
    (markModZero s).port = s.port := by
  unfold markModZero; split <;> rfl

@[simp] theorem markModZero_evalCount (s : JLedState) :
    (markModZero s).evalCount = s.evalCount := by
  unfold markModZero; split <;> rfl

@[simp] theorem initPhase_brightness_func (s : JLedState) (now : Nat) :
    (initPhase s now).brightness_func = s.brightness_func := by
  unfold initPhase; split <;> rfl

@[simp] theorem initPhase_effect_param (s : JLedState) (now : Nat) :
    (initPhase s now).effect_param = s.effect_param := by
  unfold initPhase; split <;> rfl

@[simp] theorem initPhase_flags (s : JLedState) (now : Nat) :
    (initPhase s now).flags = s.flags := by
  unfold initPhase; split <;> rfl

@[simp] theorem initPhase_num_repetitions (s : JLedState) (now : Nat) :
    (initPhase s now).num_repetitions = s.num_repetitions := by
  unfold initPhase; split <;> rfl

@[simp] theorem initPhase_delay_before (s : JLedState) (now : Nat) :
    (initPhase s now).delay_before = s.delay_before := by
  unfold initPhase; split <;> rfl

@[simp] theorem initPhase_delay_after (s : JLedState) (now : Nat) :
    (initPhase s now).delay_after = s.delay_after := by
  unfold initPhase; split <;> rfl

@[simp] theorem initPhase_period (s : JLedState) (now : Nat) :
    (initPhase s now).period = s.period := by
  unfold initPhase; split <;> rfl

@[simp] theorem initPhase_port (s : JLedState) (now : Nat) :
    (initPhase s now).port = s.port := by
  unfold initPhase; split <;> rfl

@[simp] theorem initPhase_evalCount (s : JLedState) (now : Nat) :
    (initPhase s now).evalCount = s.evalCount := by
  unfold initPhase; split <;> rfl

@[simp] theorem initPhase_modZeroHit (s : JLedState) (now : Nat) :
    (initPhase s now).modZeroHit = s.modZeroHit := by
  unfold initPhase; split <;> rfl

/-! ### Structural lemmas about `update` -/

theorem sub32_of_le (a b : Nat) (h1 : b ≤ a) (h2 : a < 4294967296) :
    sub32 a b = a - b := by
  unfold sub32; omega

theorem sub32_self (a : Nat) : sub32 a a = 0 := by
  unfold sub32; omega

theorem update_none (s : JLedState) (now : Nat) (h : s.brightness_func = none) :
    update s now = (false, s) := by
  unfold update; rw [h]

theorem update_guard (s : JLedState) (now : Nat) (f : BrightnessFn)
    (h : s.brightness_func = some f) (h2 : s.last_update_time = now) :
    update s now = (true, s) := by
  unfold update; rw [h]; dsimp only; rw [if_pos h2]

theorem updateCycleCore_post (s : JLedState) (f : BrightnessFn) (now : Nat) :
    (updateCycleCore s f now).1 = true ∧
    (updateCycleCore s f now).2.brightness_func = s.brightness_func ∧
    (updateCycleCore s f now).2.num_repetitions = s.num_repetitions ∧
    (updateCycleCore s f now).2.period = s.period ∧
    (updateCycleCore s f now).2.delay_after = s.delay_after ∧
    (updateCycleCore s f now).2.delay_before = s.delay_before ∧
    (updateCycleCore s f now).2.last_update_time = s.last_update_time ∧
    (updateCycleCore s f now).2.time_start = s.time_start := by
  unfold updateCycleCore; split_ifs <;> simp

theorem updateCycle_post (s : JLedState) (f : BrightnessFn) (now : Nat) :
    (updateCycle s f now).1 = true ∧
    (updateCycle s f now).2.brightness_func = s.brightness_func ∧
    (updateCycle s f now).2.num_repetitions = s.num_repetitions ∧
    (updateCycle s f now).2.period = s.period ∧
    (updateCycle s f now).2.delay_after = s.delay_after ∧
    (updateCycle s f now).2.delay_before = s.delay_before ∧
    (updateCycle s f now).2.last_update_time = s.last_update_time ∧
    (updateCycle s f now).2.time_start = s.time_start := by
  have h := updateCycleCore_post (markModZero s) f now
  simpa [updateCycle] using h

theorem updateActive_post (s : JLedState) (f : BrightnessFn) (now : Nat) :
    ((updateActive s f now).1 = true ∧
     (updateActive s f now).2.brightness_func = s.brightness_func ∧
     (updateActive s f now).2.num_repetitions = s.num_repetitions ∧
     (updateActive s f now).2.last_update_time = s.last_update_time) ∨
    ((updateActive s f now).1 = false ∧
     (updateActive s f now).2.brightness_func = none ∧
     (updateActive s f now).2.last_update_time = s.last_update_time) := by
  unfold updateActive; split_ifs
  · right; simp
  · left; have h := updateCycle_post s f now; exact ⟨h.1, h.2.1, h.2.2.1, h.2.2.2.2.2.2.1⟩
  · left; have h := updateCycle_post s f now; exact ⟨h.1, h.2.1, h.2.2.1, h.2.2.2.2.2.2.1⟩

theorem updateTick_post (s : JLedState) (f : BrightnessFn) (now delta : Nat) :
    ((updateTick s f now delta).1 = true ∧
     (updateTick s f now delta).2.brightness_func = s.brightness_func ∧
     (updateTick s f now delta).2.last_update_time = s.last_update_time) ∨
    ((updateTick s f now delta).1 = false ∧
     (updateTick s f now delta).2.brightness_func = none ∧
     (updateTick s f now delta).2.last_update_time = s.last_update_time) := by
  unfold updateTick; split_ifs
  · left; exact ⟨rfl, rfl, rfl⟩
  · rcases updateActive_post { s with delay_before := s.delay_before - delta } f now with
      ⟨h1, h2, _, h4⟩ | ⟨h1, h2, h4⟩
    · left; exact ⟨h1, h2, h4⟩
    · right; exact ⟨h1, h2, h4⟩
  · rcases updateActive_post s f now with ⟨h1, h2, _, h4⟩ | ⟨h1, h2, h4⟩
    · left; exact ⟨h1, h2, h4⟩
    · right; exact ⟨h1, h2, h4⟩

theorem update_post (s : JLedState) (now : Nat) (f : BrightnessFn)
    (h : s.brightness_func = some f) (h2 : s.last_update_time ≠ now) :
    ((update s now).1 = true ∧ (update s now).2.brightness_func = some f ∧
      (update s now).2.last_update_time = now) ∨
    ((update s now).1 = false ∧ (update s now).2.brightness_func = none) := by
  unfold update; rw [h]; dsimp only; rw [if_neg h2]
  rcases updateTick_post { initPhase s now with last_update_time := now } f now
      (sub32 now (initPhase s now).last_update_time) with
    ⟨h1, hb, hc⟩ | ⟨h1, hb, _⟩
  · left
    refine ⟨h1, ?_, ?_⟩
    · rw [hb]; show (initPhase s now).brightness_func = some f
      rw [initPhase_brightness_func, h]
    · exact hc
  · right; exact ⟨h1, hb⟩

/-! ### Claim C2 -/

/-- Claim C2: for every controller state and every time value `now`,
calling `Update` twice in succession with the same `now` yields the same
return value on both calls, and the second call performs no sink write and
makes no state change at all (the result of the second call equals the
result of the first call, state included). -/
theorem update_idempotent_same_tick (s : JLedState) (now : Nat) :
    update (update s now).2 now = update s now := by
  cases h : s.brightness_func with
  | none =>
    have e := update_none s now h
    rw [e]
    exact update_none s now h
  | some f =>
    by_cases hg : s.last_update_time = now
    · have e := update_guard s now f h hg
      rw [e]
      exact e
    · rcases update_post s now f h hg with ⟨h1, h2, h3⟩ | ⟨h1, h2⟩
      · rw [update_guard (update s now).2 now f h2 h3, ← h1]
      · rw [update_none (update s now).2 now h2, ← h1]

/-! ### Claim C3 -/

/-- Claim C3 counterexample: with `LowActive()` set, `Stop()` does not
deliver 0 to the sink: `AnalogWrite(0)` applies the low-active polarity
transform, so the sink receives 255. -/
theorem stop_low_active_cex :
    (Stop (LowActive (On initialState))).port = [255] ∧ (255 : Nat) ≠ 0 := by
  decide

/-- Claim C3 (amended): `Stop()` clears the active brightness function and
calls `AnalogWrite(0)`, which bypasses the inversion transform but still
applies the low-active polarity transform: the value arriving at the sink
is 0 when `LowActive()` is not set and 255 when it is. -/
theorem stop_clears_and_writes (s : JLedState) :
    (Stop s).brightness_func = none ∧
    (Stop s).port = s.port ++ [if getFlag s FL_LOW_ACTIVE then 255 else 0] :=
  ⟨rfl, rfl⟩

/-! ### Claim C4 -/

/-- Claim C4: the code does not tolerate wraparound of the `u32`
millisecond counter.  `Blink(250,250)` (period 500, one repetition) first
updated at `now = 2^32 - 100` finishes immediately (returns `false`):
`time_end = time_start + 500` wraps to 400 and the comparison
`now >= time_end` is absolute, not modular.  The same call pattern shifted
to small times returns "running" (`true`).  Moreover a first `Update` call
at `now = 2^32 - 1` collides with the `kTimeUndef` sentinel, returns
`true` from the same-tick guard and does not initialize the timeline
(`time_start` stays `kTimeUndef`). -/
theorem update_wraparound_bug :
    (update (Blink initialState 250 250) 4294967196).1 = false ∧
    (update (Blink initialState 250 250) 0).1 = true ∧
    (update (On initialState) 4294967295).1 = true ∧
    (update (On initialState) 4294967295).2.time_start = kTimeUndef := by
  decide

/-! ### Claim C5 -/

/-- Claim C5 counterexample: the modulo of `Update` is executed with
divisor `period_ + delay_after_ = 0` for `Blink(0,0).Forever()` on its
very first update call (undefined behaviour in C++). -/
theorem mod_zero_cex :
    ((update (Forever (Blink initialState 0 0)) 0).2).modZeroHit = true := by
  decide

theorem markModZero_eq_of_pos (s : JLedState) (h : 1 ≤ s.period + s.delay_after) :
    markModZero s = s := by
  unfold markModZero; rw [if_neg (by omega)]

theorem updateCycle_modZero (s : JLedState) (f : BrightnessFn) (now : Nat)
    (h : 1 ≤ s.period + s.delay_after) :
    (updateCycle s f now).2.modZeroHit = s.modZeroHit := by
  unfold updateCycle updateCycleCore
  rw [markModZero_eq_of_pos s h]
  split_ifs <;> simp

theorem updateActive_modZero (s : JLedState) (f : BrightnessFn) (now : Nat)
    (h : 1 ≤ s.period + s.delay_after) :
    (updateActive s f now).2.modZeroHit = s.modZeroHit := by
  unfold updateActive; split_ifs
  · simp
  · exact updateCycle_modZero s f now h
  · exact updateCycle_modZero s f now h

theorem updateTick_modZero (s : JLedState) (f : BrightnessFn) (now delta : Nat)
    (h : 1 ≤ s.period + s.delay_after) :
    (updateTick s f now delta).2.modZeroHit = s.modZeroHit := by
  unfold updateTick; split_ifs
  · rfl
  · exact updateActive_modZero { s with delay_before := s.delay_before - delta } f now h
  · exact updateActive_modZero s f now h

theorem update_modZero (s : JLedState) (now : Nat)
    (h : 1 ≤ s.period + s.delay_after) :
    (update s now).2.modZeroHit = s.modZeroHit := by
  cases hb : s.brightness_func with
  | none => rw [update_none s now hb]
  | some f =>
    by_cases hg : s.last_update_time = now
    · rw [update_guard s now f hb hg]
    · unfold update; rw [hb]; dsimp only; rw [if_neg hg]
      have ht := updateTick_modZero { initPhase s now with last_update_time := now } f now
          (sub32 now (initPhase s now).last_update_time) (by simpa using h)
      simpa using ht

/-- Claim C5 (amended): the modulo by `period_ + delay_after_` in `Update`
is never a modulo by zero provided `period + delay_after >= 1`; `On`/`Off`
pin `period` to 1, so they always satisfy this.  (The counterexample
`mod_zero_cex` shows an effect configured with `period = 0` and
`delay_after = 0` running forever does execute a modulo by zero.) -/
theorem mod_zero_safe (s : JLedState) (now : Nat)
    (h1 : 1 ≤ s.period + s.delay_after) (h2 : s.modZeroHit = false) :
    (update s now).2.modZeroHit = false ∧ (On s).period = 1 ∧ (Off s).period = 1 := by
  refine ⟨?_, rfl, rfl⟩
  rw [update_modZero s now h1, h2]

theorem mod_zero_safe_witness :
    (update (On initialState) 7).2.modZeroHit = false ∧
    (On (On initialState)).period = 1 ∧ (Off (On initialState)).period = 1 :=
  mod_zero_safe (On initialState) 7 (by decide) (by decide)

/-! ### Claim C6 -/

theorem updateActive_forever (s : JLedState) (f : BrightnessFn) (now : Nat)
    (hrep : s.num_repetitions = kRepeatForever) :
    (updateActive s f now).1 = true ∧
    (updateActive s f now).2.brightness_func = s.brightness_func ∧
    (updateActive s f now).2.num_repetitions = s.num_repetitions := by
  unfold updateActive
  rw [if_neg (by simp [hrep])]
  have h := updateCycle_post s f now
  exact ⟨h.1, h.2.1, h.2.2.1⟩

theorem updateTick_forever (s : JLedState) (f : BrightnessFn) (now delta : Nat)
    (hrep : s.num_repetitions = kRepeatForever) :
    (updateTick s f now delta).1 = true ∧
    (updateTick s f now delta).2.brightness_func = s.brightness_func ∧
    (updateTick s f now delta).2.num_repetitions = s.num_repetitions := by
  unfold updateTick; split_ifs
  · exact ⟨rfl, rfl, rfl⟩
  · exact updateActive_forever { s with delay_before := s.delay_before - delta } f now hrep
  · exact updateActive_forever s f now hrep

theorem forever_step (s : JLedState) (now : Nat) (f : BrightnessFn)
    (hrep : s.num_repetitions = kRepeatForever) (h : s.brightness_func = some f) :
    (update s now).1 = true ∧ (update s now).2.brightness_func = some f ∧
    (update s now).2.num_repetitions = kRepeatForever := by
  by_cases hg : s.last_update_time = now
  · rw [update_guard s now f h hg]; exact ⟨rfl, h, hrep⟩
  · unfold update; rw [h]; dsimp only; rw [if_neg hg]
    have ht := updateTick_forever { initPhase s now with last_update_time := now } f now
        (sub32 now (initPhase s now).last_update_time) (by simpa using hrep)
    refine ⟨ht.1, ?_, ?_⟩
    · rw [ht.2.1]
      show (initPhase s now).brightness_func = some f
      rw [initPhase_brightness_func, h]
    · rw [ht.2.2]
      show (initPhase s now).num_repetitions = kRepeatForever
      rw [initPhase_num_repetitions, hrep]

/-- Claim C6: with the forever sentinel 65535 as repeat count, `Update`
never returns "finished": for every call pattern while an effect is
active, every call returns `true`, and the effect is never cleared by time
expiry. -/
theorem forever_never_finished (s : JLedState) (ts : List Nat)
    (hrep : s.num_repetitions = kRepeatForever)
    (hact : s.brightness_func.isSome = true) :
    (runUpdates s ts).1 = List.replicate ts.length true := by
  induction ts generalizing s with
  | nil => rfl
  | cons t rest ih =>
    obtain ⟨f, hf⟩ := Option.isSome_iff_exists.mp hact
    obtain ⟨h1, h2, h3⟩ := forever_step s t f hrep hf
    show (update s t).1 :: (runUpdates (update s t).2 rest).1 = _
    rw [List.length_cons, List.replicate_succ, h1,
      ih (update s t).2 h3 (by rw [h2]; rfl)]

theorem forever_never_finished_witness :
    (runUpdates (Forever (Blink initialState 250 250)) [0, 100, 4294967290]).1
      = List.replicate [0, 100, 4294967290].length true :=
  forever_never_finished (Forever (Blink initialState 250 250)) [0, 100, 4294967290]
    rfl rfl

/-! ### Claim C7 -/

/-- Claim C7 counterexample: in the `Blink(500,500)` single-repetition
scenario updated at times 0, 250, 500, 1000, 1001, the per-call write
sequence is not the claimed one: the finishing call at 1000 evaluates the
blink function at `t = period - 1 = 999` (the blink period is
`500 + 500 = 1000`), which is in the "off" half, so it writes 0, not 255. -/
theorem blink_scenario_cex :
    ¬ ((runTrace (Blink initialState 500 500) [0, 250, 500, 1000, 1001]).map Prod.snd
        = [[255], [255], [0], [255], []]) := by
  decide

/-- Claim C7 (amended): for `Blink(500,500)` with one repetition and no
delays, `update(0)` writes 255; `update(250)` writes 255; `update(500)`
writes 0; `update(1000)` reaches `time_end = 1000`, performs the final
evaluation at `t = period - 1 = 999` writing 0, and returns "finished";
`update(1001)` returns "not running" and performs no write. -/
theorem blink_scenario :
    runTrace (Blink initialState 500 500) [0, 250, 500, 1000, 1001]
      = [(true, [255]), (true, [255]), (true, [0]), (false, [0]), (false, [])] := by
  decide

/-! ### Claim C8 -/

/-- Claim C8 counterexample: the fade-off function does not reach 0 at its
terminal tick for every duration: for `d = 3`,
`FadeOffFunc(d-1, d) = FadeOnFunc(1, 3) = 26`. -/
theorem fade_off_terminal_cex : ¬ (fadeOffFunc (3 - 1) 3 0 = 0) := by decide

/-- Claim C8 (amended): for every duration `d >= 1`, the fade-on function
hits exactly 255 at its terminal tick `t = d - 1`; the fade-off function
at its terminal tick evaluates `FadeOnFunc(1, d)`, which is exactly 0 for
every `d >= 257` (when the scaled interpolation argument `256/d` becomes
0), but not for small `d`. -/
theorem fade_terminal_values (d param : Nat) (h1 : 1 ≤ d) (h2 : d < 4294967296) :
    fadeOnFunc (d - 1) d param = 255 ∧
    (257 ≤ d → fadeOffFunc (d - 1) d param = 0) := by
  constructor
  · unfold fadeOnFunc
    rw [if_pos (show d ≤ (d - 1 + 1) % 4294967296 by omega)]
  · intro h257
    unfold fadeOffFunc
    have hs : sub32 d (d - 1) = 1 := by unfold sub32; omega
    rw [hs]
    unfold fadeOnFunc
    rw [if_neg (by omega)]
    have e1 : ((1 % 4294967296) <<< 8) % 4294967296 = 256 := by decide
    rw [e1]
    have e2 : 256 / d = 0 := Nat.div_eq_of_lt (by omega)
    rw [e2]
    decide

theorem fade_terminal_values_witness :
    fadeOnFunc (300 - 1) 300 0 = 255 ∧ (257 ≤ 300 → fadeOffFunc (300 - 1) 300 0 = 0) :=
  fade_terminal_values 300 0 (by decide) (by decide)

/-! ### Claim C9 -/

/-- Claim C9: on every `Update` call on an active effect at a fresh tick
in which the pre-delay budget, after being decremented by the elapsed
delta (floored at 0), remains strictly positive, no brightness evaluation
occurs and no value is written to the sink, and the call returns
"running". -/
theorem delay_before_no_write (s : JLedState) (f : BrightnessFn) (now : Nat)
    (hb : s.brightness_func = some f) (hg : s.last_update_time ≠ now)
    (hd : deltaOf s now < s.delay_before) :
    (update s now).1 = true ∧ (update s now).2.port = s.port ∧
    (update s now).2.evalCount = s.evalCount ∧
    (update s now).2.delay_before = s.delay_before - deltaOf s now := by
  unfold update; rw [hb]; dsimp only; rw [if_neg hg]
  have hδ : sub32 now (initPhase s now).last_update_time = deltaOf s now := by
    unfold initPhase deltaOf; split_ifs with h
    · dsimp only; exact sub32_self now
    · rfl
  rw [hδ]
  have hdb : ({ initPhase s now with last_update_time := now } : JLedState).delay_before
      = s.delay_before := by simp
  unfold updateTick
  split_ifs with c1 c2
  · refine ⟨rfl, ?_, ?_, ?_⟩ <;> simp
  · rw [hdb] at c2; omega
  · rw [hdb] at c1; omega

theorem delay_before_no_write_witness :
    (update (DelayBefore (On initialState) 100) 0).1 = true ∧
    (update (DelayBefore (On initialState) 100) 0).2.port
      = (DelayBefore (On initialState) 100).port ∧
    (update (DelayBefore (On initialState) 100) 0).2.evalCount
      = (DelayBefore (On initialState) 100).evalCount ∧
    (update (DelayBefore (On initialState) 100) 0).2.delay_before
      = (DelayBefore (On initialState) 100).delay_before
        - deltaOf (DelayBefore (On initialState) 100) 0 :=
  delay_before_no_write (DelayBefore (On initialState) 100) .onF 0
    rfl (by decide) (by decide)

/-! ### Claim C1 -/

/-- Claim C1 counterexample: the claim fails without a no-overflow side
condition.  Take `Blink(0,0)` (period 0), one repetition, no delays, and
first call time `t0 = 2^32 - 1`: the first call time already satisfies
`now >= t0 + delay_before + n*(p + delay_after)`, so the claim requires it
to return "finished" (`false`), but the code returns `true` (the call time
collides with the `kTimeUndef` sentinel and is swallowed by the same-tick
guard). -/
theorem update_finish_time_cex :
    4294967295 + 0 + (0 + 0) * 1 ≤ 4294967295 ∧
    (runUpdates (Blink initialState 0 0) [4294967295]).1 = [true] := by
  decide

/-! ### Claim C10 -/

theorem interpolate_le : ∀ x < 256, interpolate x ≤ 255 := by decide

theorem interpolate_step : ∀ x < 255, interpolate x ≤ interpolate (x + 1) := by decide

theorem interpolate_mono : ∀ b < 256, ∀ a, a ≤ b → interpolate a ≤ interpolate b := by
  intro b
  induction b with
  | zero => intro _ a ha; rw [Nat.le_zero.mp ha]
  | succ k ih =>
    intro hb a ha
    rcases Nat.eq_or_lt_of_le ha with h | h
    · rw [h]
    · exact le_trans (ih (by omega) a (by omega)) (interpolate_step k (by omega))

theorem and255_of_lt : ∀ x < 256, x &&& 255 = x := by decide

theorem scaled_lt (t period : Nat) (h : t < period) : t * 256 / period < 256 := by
  rw [Nat.div_lt_iff_lt_mul (by omega : 0 < period)]
  omega

/-- On a non-terminal tick, `FadeOnFunc` is table interpolation at the
scaled time `t * 256 / period` (all `uint32_t` reductions and the 8-bit
mask are the identity there). -/
theorem fadeOn_nonterminal (t period param : Nat) (h1 : t + 1 < period)
    (h2 : period < 65536) :
    fadeOnFunc t period param = interpolate (t * 256 / period) := by
  unfold fadeOnFunc
  rw [if_neg (by omega)]
  have ht : t % 4294967296 = t := Nat.mod_eq_of_lt (by omega)
  rw [ht, Nat.shiftLeft_eq]
  have h3 : t * 2 ^ 8 % 4294967296 = t * 256 := by
    have he : t * 2 ^ 8 = t * 256 := by norm_num
    rw [he, Nat.mod_eq_of_lt (by omega)]
  rw [h3, and255_of_lt (t * 256 / period) (scaled_lt t period (by omega))]

/-- Claim C10: the built-in fade-on brightness function is monotonically
non-decreasing in time over one period, its interpolation-table index
(plus one, for the second endpoint) always stays inside the 9-entry
table, and its result is always at most 255 (hence in `[0, 255]`). -/
theorem fade_on_monotone (period param t1 t2 : Nat)
    (hp : 1 ≤ period) (hp16 : period < 65536) (h12 : t1 ≤ t2) (h2 : t2 < period) :
    fadeOnFunc t1 period param ≤ fadeOnFunc t2 period param ∧
    fadeOnFunc t2 period param ≤ 255 ∧
    ((((t2 % 4294967296) <<< 8) % 4294967296) / period &&& 255) >>> 5 + 1 < 9 := by
  have hidx : ∀ x : Nat, (x &&& 255) >>> 5 + 1 < 9 := by
    intro x
    have h255 : x &&& 255 ≤ 255 := Nat.and_le_right
    have h7 : (x &&& 255) >>> 5 ≤ 7 := by
      rw [Nat.shiftRight_eq_div_pow]
      have hd : (x &&& 255) / 2 ^ 5 ≤ 255 / 2 ^ 5 := Nat.div_le_div_right h255
      norm_num at hd
      omega
    omega
  have hb2 : fadeOnFunc t2 period param ≤ 255 := by
    by_cases hT2 : t2 + 1 = period
    · unfold fadeOnFunc; rw [if_pos (by omega)]
    · rw [fadeOn_nonterminal t2 period param (by omega) hp16]
      exact interpolate_le _ (scaled_lt t2 period h2)
  refine ⟨?_, hb2, hidx _⟩
  by_cases hT2 : t2 + 1 = period
  · have hterm : fadeOnFunc t2 period param = 255 := by
      unfold fadeOnFunc; rw [if_pos (by omega)]
    rw [hterm]
    by_cases hT1 : t1 + 1 = period
    · unfold fadeOnFunc; rw [if_pos (by omega)]
    · rw [fadeOn_nonterminal t1 period param (by omega) hp16]
      exact interpolate_le _ (scaled_lt t1 period (by omega))
  · rw [fadeOn_nonterminal t1 period param (by omega) hp16,
        fadeOn_nonterminal t2 period param (by omega) hp16]
    exact interpolate_mono (t2 * 256 / period) (scaled_lt t2 period h2)
      (t1 * 256 / period) (Nat.div_le_div_right (by omega))

theorem fade_on_monotone_witness :
    fadeOnFunc 10 100 0 ≤ fadeOnFunc 50 100 0 ∧
    fadeOnFunc 50 100 0 ≤ 255 ∧
    ((((50 % 4294967296) <<< 8) % 4294967296) / 100 &&& 255) >>> 5 + 1 < 9 :=
  fade_on_monotone 100 0 10 50 (by decide) (by decide) (by decide) (by decide)

/-! ### Claim C1: finishing time of a finite-repeat run -/

/-- Invariant of an active finite-repeat run configured with brightness
function `f`, repeat count `n`, pre-delay `db`, post-delay `da` and period
`p`, first updated at `t0`, whose last update happened at `tk` (all update
times so far below the expiry time): the timeline fields have their
closed-form values. -/
def C1Inv (f : BrightnessFn) (n db da p t0 tk : Nat) (s : JLedState) : Prop :=
  s.brightness_func = some f ∧ s.num_repetitions = n ∧ s.period = p ∧
  s.delay_after = da ∧ s.last_update_time = tk ∧ s.time_start = t0 + db ∧
  s.delay_before = db - (tk - t0) ∧ t0 ≤ tk

theorem c1_updateActive (s : JLedState) (f : BrightnessFn) (n db da p t0 now : Nat)
    (hbf : s.brightness_func = some f) (hn : s.num_repetitions = n)
    (hp : s.period = p) (hda : s.delay_after = da) (hts : s.time_start = t0 + db)
    (hn2 : n < 65535)
    (hT : t0 + db + (p + da) * n < 4294967296) :
    (now < t0 + db + (p + da) * n →
      (updateActive s f now).1 = true ∧
      (updateActive s f now).2.brightness_func = some f ∧
      (updateActive s f now).2.num_repetitions = n ∧
      (updateActive s f now).2.period = p ∧
      (updateActive s f now).2.delay_after = da ∧
      (updateActive s f now).2.last_update_time = s.last_update_time ∧
      (updateActive s f now).2.time_start = t0 + db ∧
      (updateActive s f now).2.delay_before = s.delay_before) ∧
    (t0 + db + (p + da) * n ≤ now →
      (updateActive s f now).1 = false ∧
      (updateActive s f now).2.brightness_func = none) := by
  unfold updateActive
  rw [if_pos (show s.num_repetitions ≠ kRepeatForever by
    rw [hn]; unfold kRepeatForever; omega)]
  have hte : (s.time_start + (s.period + s.delay_after) * s.num_repetitions) % 4294967296
      = t0 + db + (p + da) * n := by
    rw [hts, hp, hda, hn]
    exact Nat.mod_eq_of_lt (by omega)
  rw [hte]
  split_ifs with hc
  · constructor
    · intro hlt; omega
    · intro _; simp
  · constructor
    · intro _
      have h := updateCycle_post s f now
      exact ⟨h.1, by rw [h.2.1, hbf], by rw [h.2.2.1, hn], by rw [h.2.2.2.1, hp],
        by rw [h.2.2.2.2.1, hda], h.2.2.2.2.2.2.1,
        by rw [h.2.2.2.2.2.2.2, hts], h.2.2.2.2.2.1⟩
    · intro hge; omega

theorem c1_updateTick (s : JLedState) (f : BrightnessFn) (n db da p t0 now delta : Nat)
    (hbf : s.brightness_func = some f) (hn : s.num_repetitions = n) (hp : s.period = p)
    (hda : s.delay_after = da) (hts : s.time_start = t0 + db)
    (hlast : s.last_update_time = now)
    (hrem : s.delay_before - delta = db - (now - t0))
    (ht0 : t0 ≤ now)
    (hn2 : n < 65535) (hT : t0 + db + (p + da) * n < 4294967296) :
    (now < t0 + db + (p + da) * n →
      (updateTick s f now delta).1 = true ∧
      C1Inv f n db da p t0 now (updateTick s f now delta).2) ∧
    (t0 + db + (p + da) * n ≤ now →
      (updateTick s f now delta).1 = false ∧
      (updateTick s f now delta).2.brightness_func = none) := by
  unfold updateTick
  split_ifs with c1 c2
  · -- still waiting on the pre-delay
    constructor
    · intro _
      exact ⟨rfl, hbf, hn, hp, hda, hlast, hts, hrem, ht0⟩
    · intro hge
      rw [hrem] at c2
      omega
  · -- pre-delay just exhausted on this call
    have h5 := c1_updateActive { s with delay_before := s.delay_before - delta }
      f n db da p t0 now hbf hn hp hda hts hn2 hT
    constructor
    · intro hlt
      obtain ⟨ha, hb, hc, hd, he, hf2, hg2, hh⟩ := h5.1 hlt
      refine ⟨ha, hb, hc, hd, he, ?_, hg2, ?_, ht0⟩
      · rw [hf2]; exact hlast
      · rw [hh]; exact hrem
    · intro hge
      exact h5.2 hge
  · -- no pre-delay configured (or already exhausted earlier)
    have h5 := c1_updateActive s f n db da p t0 now hbf hn hp hda hts hn2 hT
    constructor
    · intro hlt
      obtain ⟨ha, hb, hc, hd, he, hf2, hg2, hh⟩ := h5.1 hlt
      refine ⟨ha, hb, hc, hd, he, ?_, hg2, ?_, ht0⟩
      · rw [hf2]; exact hlast
      · rw [hh]; omega
    · intro hge
      exact h5.2 hge

theorem c1_step (f : BrightnessFn) (n db da p t0 tk now : Nat) (s : JLedState)
    (hn2 : n < 65535)
    (hT : t0 + db + (p + da) * n < 4294967296)
    (hInv : C1Inv f n db da p t0 tk s)
    (hk : tk < t0 + db + (p + da) * n)
    (hle : tk ≤ now) (hnow : now < 4294967296) :
    (now < t0 + db + (p + da) * n →
      (update s now).1 = true ∧ C1Inv f n db da p t0 now (update s now).2) ∧
    (t0 + db + (p + da) * n ≤ now →
      (update s now).1 = false ∧ (update s now).2.brightness_func = none) := by
  obtain ⟨hbf, hn, hp, hda, hlu, hts, hdb, ht0⟩ := hInv
  by_cases hg : s.last_update_time = now
  · rw [update_guard s now f hbf hg]
    have hnowtk : now = tk := by rw [← hg, hlu]
    constructor
    · intro _
      exact ⟨rfl, hbf, hn, hp, hda, hg, hts, by rw [hdb, hnowtk], by omega⟩
    · intro hge
      rw [hnowtk] at hge
      omega
  · unfold update
    rw [hbf]
    dsimp only
    rw [if_neg hg]
    have hinit : initPhase s now = s := by
      unfold initPhase
      rw [if_neg (by rw [hlu]; unfold kTimeUndef; omega)]
    rw [hinit]
    have hdelta : sub32 now s.last_update_time = now - tk := by
      rw [hlu]; exact sub32_of_le now tk hle hnow
    rw [hdelta]
    exact c1_updateTick { s with last_update_time := now } f n db da p t0 now (now - tk)
      hbf hn hp hda hts rfl
      (by show s.delay_before - (now - tk) = db - (now - t0); rw [hdb]; omega)
      (by omega) hn2 hT

theorem runUpdates_cons (s : JLedState) (t : Nat) (rest : List Nat) :
    runUpdates s (t :: rest)
      = ((update s t).1 :: (runUpdates (update s t).2 rest).1,
         (runUpdates (update s t).2 rest).2) := rfl

theorem expectedRunning_cons (T t : Nat) (rest : List Nat) :
    expectedRunning T (t :: rest)
      = if t < T then true :: expectedRunning T rest
        else false :: List.replicate rest.length false := rfl

/-- Once the controller is idle (`brightness_func_` cleared), every further
`Update` call returns `false` and changes nothing. -/
theorem idle_run (s : JLedState) (ts : List Nat) (h : s.brightness_func = none) :
    (runUpdates s ts).1 = List.replicate ts.length false := by
  induction ts generalizing s with
  | nil => rfl
  | cons t rest ih =>
    rw [runUpdates_cons, update_none s t h]
    show false :: (runUpdates s rest).1 = _
    rw [List.length_cons, List.replicate_succ, ih s h]

theorem c1_run (f : BrightnessFn) (n db da p t0 : Nat)
    (hn2 : n < 65535) (hT : t0 + db + (p + da) * n < 4294967296) :
    ∀ (ts : List Nat) (tk : Nat) (s : JLedState),
      C1Inv f n db da p t0 tk s → tk < t0 + db + (p + da) * n →
      List.Chain (fun a b => a ≤ b) tk ts → (∀ x ∈ ts, x < 4294967296) →
      (runUpdates s ts).1 = expectedRunning (t0 + db + (p + da) * n) ts := by
  intro ts
  induction ts with
  | nil => intro tk s _ _ _ _; rfl
  | cons t rest ih =>
    intro tk s hInv hk hchain hbound
    rw [List.chain_cons] at hchain
    obtain ⟨hle, hchain2⟩ := hchain
    have hstep := c1_step f n db da p t0 tk t s hn2 hT hInv hk hle
      (hbound t (by simp))
    rw [runUpdates_cons, expectedRunning_cons]
    by_cases hlt : t < t0 + db + (p + da) * n
    · obtain ⟨h1, h2⟩ := hstep.1 hlt
      rw [if_pos hlt]
      show (update s t).1 :: (runUpdates (update s t).2 rest).1 = _
      rw [h1, ih t (update s t).2 h2 hlt hchain2 (fun x hx => hbound x (by simp [hx]))]
    · obtain ⟨h1, h2⟩ := hstep.2 (by omega)
      rw [if_neg hlt]
      show (update s t).1 :: (runUpdates (update s t).2 rest).1 = _
      rw [h1, idle_run (update s t).2 rest h2]

/-- A controller state as left by `Init` right after installing brightness
function `f`, with configuration `effect_param = ep`, `flags = fl`,
`num_repetitions = n`, `delay_before = db`, `delay_after = da`,
`period = p`, an arbitrary sink log and instrumentation values:
`last_update_time` and `time_start` are both `kTimeUndef`. -/
def configured (f : BrightnessFn) (ep fl n db da p : Nat) (port0 : List Nat)
    (e0 : Nat) (m0 : Bool) : JLedState :=
  { brightness_func := some f
    effect_param := ep
    flags := fl
    num_repetitions := n
    last_update_time := kTimeUndef
    delay_before := db
    delay_after := da
    time_start := kTimeUndef
    period := p
    port := port0
    evalCount := e0
    modZeroHit := m0 }

theorem c1_first (s : JLedState) (f : BrightnessFn) (n db da p t0 : Nat)
    (hbf : s.brightness_func = some f) (hn : s.num_repetitions = n) (hp : s.period = p)
    (hda : s.delay_after = da) (hdb : s.delay_before = db)
    (hlu : s.last_update_time = kTimeUndef)
    (hn2 : n < 65535) (hT : t0 + db + (p + da) * n < 4294967296)
    (ht0T : t0 < t0 + db + (p + da) * n) :
    (update s t0).1 = true ∧ C1Inv f n db da p t0 t0 (update s t0).2 := by
  have hne : s.last_update_time ≠ t0 := by rw [hlu]; unfold kTimeUndef; omega
  unfold update
  rw [hbf]
  dsimp only
  rw [if_neg hne]
  have hi : initPhase s t0 = { s with last_update_time := t0, time_start := (t0 + s.delay_before) % 4294967296 } := by
    unfold initPhase; rw [if_pos hlu]
  rw [hi]
  rw [show sub32 t0 ({ s with last_update_time := t0, time_start := (t0 + s.delay_before) % 4294967296 } : JLedState).last_update_time = 0 from sub32_self t0]
  have h5 := c1_updateTick
    { { s with last_update_time := t0, time_start := (t0 + s.delay_before) % 4294967296 } with last_update_time := t0 }
    f n db da p t0 t0 0 hbf hn hp hda
    (by show (t0 + s.delay_before) % 4294967296 = t0 + db
        rw [hdb]; exact Nat.mod_eq_of_lt (by omega))
    rfl
    (by show s.delay_before - 0 = db - (t0 - t0); rw [hdb]; omega)
    (Nat.le_refl t0) hn2 hT
  exact h5.1 ht0T

/-- Claim C1 (amended): for every finite repeat count `1 <= n < 65535`,
period `p` and delays with `p + delay_after >= 1`, and every first call
time `t0` such that `t0 + delay_before + (p + delay_after) * n < 2^32`
(no `u32` overflow of the expiry time), a freshly configured effect
updated at non-decreasing `u32` times returns "running" on exactly the
calls whose time is strictly below
`T = t0 + delay_before + (p + delay_after) * n`, and returns `false` from
the first call whose time is `>= T` (the effect is cleared there) on. -/
theorem update_finish_exact (f : BrightnessFn) (ep fl n db da p : Nat)
    (port0 : List Nat) (e0 : Nat) (m0 : Bool) (t0 : Nat) (ts : List Nat)
    (hn1 : 1 ≤ n) (hn2 : n < 65535) (hpda : 1 ≤ p + da)
    (hT : t0 + db + (p + da) * n < 4294967296)
    (hchain : List.Chain (fun a b => a ≤ b) t0 ts)
    (hbound : ∀ x ∈ ts, x < 4294967296) :
    (runUpdates (configured f ep fl n db da p port0 e0 m0) (t0 :: ts)).1
      = expectedRunning (t0 + db + (p + da) * n) (t0 :: ts) := by
  have hprod : 1 ≤ (p + da) * n := by
    calc 1 = 1 * 1 := rfl
    _ ≤ (p + da) * n := Nat.mul_le_mul hpda hn1
  have ht0T : t0 < t0 + db + (p + da) * n := by omega
  obtain ⟨h1, h2⟩ := c1_first (configured f ep fl n db da p port0 e0 m0)
    f n db da p t0 rfl rfl rfl rfl rfl rfl hn2 hT ht0T
  rw [runUpdates_cons, expectedRunning_cons, if_pos ht0T]
  show (update _ t0).1 :: (runUpdates (update _ t0).2 ts).1 = _
  rw [h1, c1_run f n db da p t0 hn2 hT ts t0
    (update (configured f ep fl n db da p port0 e0 m0) t0).2 h2 ht0T hchain hbound]

theorem update_finish_exact_witness :
    (runUpdates (configured .blinkF 2 0 1 0 0 4 [] 0 false) (0 :: [1, 4])).1
      = expectedRunning (0 + 0 + (4 + 0) * 1) (0 :: [1, 4]) :=
  update_finish_exact .blinkF 2 0 1 0 0 4 [] 0 false 0 [1, 4]
    (by decide) (by decide) (by decide) (by decide)
    (List.Chain.cons (by decide) (List.Chain.cons (by decide) List.Chain.nil))
    (by decide)

end JLed
